import Mathlib

/-!
Verification of the API module of the Taxonomy repository (src/lib/api.py).

The Python module wraps two provider SDKs (OpenAI and Palm) with
tenacity retry decorators and a concurrent, order-preserving batch
embedding fetcher.  This file gives a shallow embedding of that module:

* exceptions are modelled by the inductive `PyExc` (the raw provider
  exception, the two typed errors `OpenAIError` and `APIError` defined in
  api.py, and the tenacity `RetryError` wrapper);
* Python dict / str message objects are modelled by `PyObj`;
* the tenacity decorator `retry(wait=..., stop=stop_after_attempt(n))`
  is modelled by `retryCall`: the wrapped function is an environment
  `call : Nat → Except PyExc A` giving the outcome of each underlying
  attempt; `retryCall` returns the final outcome together with the number
  of attempts actually made.  Per tenacity, the first success is returned
  immediately, and when attempt number n fails (stop_after_attempt n)
  the decorator raises `RetryError` wrapping the last attempt;
* the thread pool plus as_completed loop of the embedding batchers is
  modelled by an arbitrary completion order `order : List Nat` (a list of
  task indices) folded over the lookup dict; the dict keyed by text is
  modelled by a function `String → Option V` updated per completed task;
* network nondeterminism is modelled by environments
  (`Nat → Except ... A` per attempt); the randomized backoff value is a
  rational function of the attempt number and a uniform draw in [0, 1].

Settings values (API_RETRY_ATTEMPTS, MAX_WORKERS, model names) come from
an external settings module that is not part of the repository source;
theorems quantify over the retry attempt count.  Waiting, logging and the
tqdm progress bar are side channels with no effect on returned values and
are not modelled.
-/

/-- Python exception values relevant to api.py.  `providerError cls msg`
is a raw exception raised by a provider SDK (class name and message);
`openAIError` and `apiError` are the typed errors defined in api.py;
`retryError last` is tenacity RetryError wrapping the last failed
attempt. -/
inductive PyExc where
  | providerError (cls msg : String)
  | openAIError (msg : String)
  | apiError (msg : String)
  | retryError (last : PyExc)
  deriving DecidableEq

/-- Python class name of an exception, as used by repr of a tenacity
Future. -/
def PyExc.clsName : PyExc → String
  | .providerError cls _ => cls
  | .openAIError _ => "OpenAIError"
  | .apiError _ => "APIError"
  | .retryError _ => "RetryError"

/-- Python str() of an exception.  For plain exceptions this is the
message they were constructed with.  For tenacity RetryError it is
"RetryError[<Future ... state=finished raised C>]" where C is the class
name of the wrapped last exception; the memory address printed inside the
Future repr is elided from the model.  Note the rendering names the
wrapped class but does not contain the wrapped message. -/
def PyExc.str : PyExc → String
  | .providerError _ msg => msg
  | .openAIError msg => msg
  | .apiError msg => msg
  | .retryError last => "RetryError[<Future state=finished raised " ++ last.clsName ++ ">]"

/-- Test used in theorem statements: is the outcome an error of the typed
class APIError defined in api.py? -/
def isTypedAPIError {α : Type} : Except PyExc α → Bool
  | Except.error (PyExc.apiError _) => true
  | _ => false

/-- Python values passed around as chat messages: strings and
string-keyed dicts. -/
inductive PyObj where
  | pstr (s : String)
  | pdict (pairs : List (String × PyObj))

/-- Dict lookup: `getKey o k` is the value under key k when o is a dict
containing k, none otherwise. -/
def getKey (o : PyObj) (k : String) : Option PyObj :=
  match o with
  | .pstr _ => none
  | .pdict pairs => (pairs.find? (fun p => p.1 = k)).map Prod.snd

/-- Tenacity retry loop.  `retryGo call k fuel` performs attempt k (0
based) with `fuel` further attempts allowed after this one.  A successful
attempt returns immediately with the attempt count; when the last allowed
attempt fails with e, the decorator raises RetryError wrapping e
(tenacity raise_exc with reraise left at its default False).  The second
component counts the underlying calls made. -/
def retryGo {α : Type} (call : Nat → Except PyExc α) (k : Nat) : Nat → Except PyExc α × Nat
  | 0 =>
    match call k with
    | Except.ok v => (Except.ok v, k + 1)
    | Except.error e => (Except.error (PyExc.retryError e), k + 1)
  | fuel + 1 =>
    match call k with
    | Except.ok v => (Except.ok v, k + 1)
    | Except.error _ => retryGo call (k + 1) fuel

/-- Model of the tenacity decorator
`retry(wait=..., stop=stop_after_attempt(maxAttempts))` applied to a
fallible operation: at most maxAttempts underlying calls, first success
returned, RetryError wrapping the last failure on exhaustion. -/
def retryCall {α : Type} (call : Nat → Except PyExc α) (maxAttempts : Nat) : Except PyExc α × Nat :=
  retryGo call 0 (maxAttempts - 1)

/-- Model of api.py get_openai_response (lines 46-70).  The environment
`env` gives, for the message list passed and each attempt index, either
the content string returned by openai.ChatCompletion.create or the raw
provider exception (class name, message).  The body catches any provider
exception, logs it, and raises OpenAIError carrying str of the original
exception; the tenacity decorator retries up to maxAttempts attempts
(settings.API_RETRY_ATTEMPTS).  Model and temperature parameters do not
affect control flow and are folded into env. -/
def get_openai_response (env : List PyObj → Nat → Except (String × String) String)
    (messages : List PyObj) (maxAttempts : Nat) : Except PyExc String × Nat :=
  retryCall (fun k =>
    match env messages k with
    | Except.ok s => Except.ok s
    | Except.error cm => Except.error (PyExc.openAIError cm.2)) maxAttempts

/-- Conversation construction inside api.py get_openai_response_chat
(line 80): the system_message argument, whether str or dict, is wrapped
unconditionally as a dict with role system and content the argument. -/
def wrapSystemMessage (system_message : PyObj) : PyObj :=
  .pdict [("role", .pstr "system"), ("content", system_message)]

/-- Default value of the system_message parameter of
get_openai_response_chat. -/
def defaultSystemMessage : PyObj := .pstr "You are an expert taxonomy creator."

/-- Conversation passed to get_openai_response by get_openai_response_chat
(api.py lines 80-88): a str messages argument becomes the wrapped system
message followed by one user message with the prompt as content; a list
messages argument is prepended with the wrapped system message. -/
def buildMessages (messages : Sum (List PyObj) String) (system_message : PyObj) : List PyObj :=
  let sys := wrapSystemMessage system_message
  match messages with
  | Sum.inr prompt => [sys, .pdict [("role", .pstr "user"), ("content", .pstr prompt)]]
  | Sum.inl ms => sys :: ms

/-- Model of api.py get_openai_response_chat (lines 73-92): builds the
conversation, calls get_openai_response, and catches tenacity RetryError,
re-raising APIError carrying str of the RetryError.  Only RetryError is
caught; other outcomes pass through. -/
def get_openai_response_chat (env : List PyObj → Nat → Except (String × String) String)
    (maxAttempts : Nat) (messages : Sum (List PyObj) String)
    (system_message : PyObj) : Except PyExc String × Nat :=
  let msgs := buildMessages messages system_message
  let r := get_openai_response env msgs maxAttempts
  match r.fst with
  | Except.error (PyExc.retryError e) =>
      (Except.error (PyExc.apiError (PyExc.str (PyExc.retryError e))), r.snd)
  | other => (other, r.snd)

/-- Model of api.py get_palm_response (lines 147-177): the tenacity
decorated call to palm.generate_text with the fixed permissive safety
settings.  There is no try/except in the body, so each attempt fails with
the raw provider exception and on exhaustion the RetryError propagates to
the caller unwrapped.  The environment gives the outcome of each attempt
for the prompt. -/
def get_palm_response (env : String → Nat → Except (String × String) String)
    (prompt : String) (maxAttempts : Nat) : Except PyExc String × Nat :=
  retryCall (fun k =>
    match env prompt k with
    | Except.ok s => Except.ok s
    | Except.error cm => Except.error (PyExc.providerError cm.1 cm.2)) maxAttempts

/-- Model of the inner get_single_embedding of get_openai_embeddings and
get_palm_embeddings: the single-item fetch decorated with
`retry(wait=wait_random_exponential(min=1, max=20), stop=stop_after_attempt(6))`.
The environment `attempts i k` gives the outcome of attempt k of the task
for input position i (the raw provider exception on failure, since the
body has no try/except).  Returns the outcome and the number of
underlying calls. -/
def get_single_embedding {V : Type} (attempts : Nat → Nat → Except PyExc V)
    (i : Nat) : Except PyExc V × Nat :=
  retryCall (attempts i) 6

/-- Loop over completed futures (the for future in as_completed loop of
the embedding batchers).  Tasks are identified by their input position;
`order` is the completion order.  Each completed task stores its result
in the lookup dict keyed by its input TEXT (a later completion for an
equal text overwrites).  future.result() re-raises a failed task
exception, aborting the loop with no partial result. -/
def gatherLoop {V : Type} (texts : List String) (task : Nat → Except PyExc V) :
    List Nat → (String → Option V) → Except PyExc (String → Option V)
  | [], d => Except.ok d
  | i :: rest, d =>
    match task i with
    | Except.error e => Except.error e
    | Except.ok v =>
        gatherLoop texts task rest (fun t => if t = texts.getD i "" then some v else d t)

/-- Index of the task whose value ends up stored under text t after the
whole completion order has been processed: the LAST task in completion
order whose input text equals t. -/
def lastIdxFor (texts : List String) (t : String) : List Nat → Option Nat
  | [] => none
  | i :: rest =>
    match lastIdxFor texts t rest with
    | some j => some j
    | none => if t = texts.getD i "" then some i else none

/-- Common body of get_openai_embeddings and get_palm_embeddings: submit
one task per input position, process completions in the arbitrary order
`order` building the text-keyed lookup, then assemble the result matrix
by re-reading the lookup in input order.  The worker pool size n_jobs
only influences which completion orders are possible and is absorbed into
`order`. -/
def batch_embeddings {V : Type} [Inhabited V] (texts : List String)
    (attempts : Nat → Nat → Except PyExc V) (order : List Nat) : Except PyExc (List V) :=
  match gatherLoop texts (fun i => (get_single_embedding attempts i).fst) order (fun _ => none) with
  | Except.error e => Except.error e
  | Except.ok d => Except.ok (texts.map (fun t => (d t).getD default))

/-- Model of api.py get_openai_embeddings (lines 96-114).  Row values are
abstracted to a type V (the source stores numpy vectors); `attempts i k`
is the outcome of attempt k of the fetch for texts position i. -/
def get_openai_embeddings {V : Type} [Inhabited V] (texts : List String)
    (attempts : Nat → Nat → Except PyExc V) (order : List Nat) : Except PyExc (List V) :=
  batch_embeddings texts attempts order

/-- Model of api.py get_palm_embeddings (lines 118-136), identical in
structure to get_openai_embeddings up to the provider call inside the
task. -/
def get_palm_embeddings {V : Type} [Inhabited V] (texts : List String)
    (attempts : Nat → Nat → Except PyExc V) (order : List Nat) : Except PyExc (List V) :=
  batch_embeddings texts attempts order

/-- Upper end of the randomized window computed by tenacity
wait_exponential for a given attempt number (attempt numbers start at 1):
max(max(0, minB), min(multiplier * 2 ^ (attemptNumber - 1), maxB)). -/
def waitExponentialHigh (multiplier minB maxB : ℚ) (attemptNumber : Nat) : ℚ :=
  max (max 0 minB) (min (multiplier * 2 ^ (attemptNumber - 1)) maxB)

/-- Tenacity wait_random_exponential with multiplier 1: the wait drawn
before the retry following the given attempt is random.uniform(0, high)
where high is the wait_exponential value; the uniform draw is modelled as
u * high for u in [0, 1]. -/
def wait_random_exponential (minB maxB : ℚ) (attemptNumber : Nat) (u : ℚ) : ℚ :=
  u * waitExponentialHigh 1 minB maxB attemptNumber

/-- Helper: when every attempt from k through k + fuel fails, the retry
loop makes all of them and ends with RetryError wrapping the last
failure. -/
theorem retryGo_all_fail {α : Type} (call : Nat → Except PyExc α) (errs : Nat → PyExc) :
    ∀ (fuel k : Nat), (∀ j, j ≤ k + fuel → call j = Except.error (errs j)) →
      retryGo call k fuel = (Except.error (PyExc.retryError (errs (k + fuel))), k + fuel + 1) := by
  intro fuel
  induction fuel with
  | zero =>
    intro k h
    have hk : call k = Except.error (errs k) := h k (by omega)
    simp [retryGo, hk]
  | succ fuel ih =>
    intro k h
    have hk : call k = Except.error (errs k) := h k (by omega)
    have hrec := ih (k + 1) (fun j hj => h j (by omega))
    have harith : k + 1 + fuel = k + (fuel + 1) := by omega
    rw [harith] at hrec
    simp [retryGo, hk, hrec]

/-- Helper: when attempts below K fail and attempt K succeeds with v, the
retry loop returns v after K + 1 calls, provided K is within the attempt
budget. -/
theorem retryGo_first_success {α : Type} (call : Nat → Except PyExc α) (errs : Nat → PyExc)
    (K : Nat) (v : α) :
    ∀ (fuel k : Nat), k ≤ K → K ≤ k + fuel →
      (∀ j, j < K → call j = Except.error (errs j)) → call K = Except.ok v →
      retryGo call k fuel = (Except.ok v, K + 1) := by
  intro fuel
  induction fuel with
  | zero =>
    intro k hk1 hk2 _ hsucc
    have hkK : k = K := by omega
    subst hkK
    simp [retryGo, hsucc]
  | succ fuel ih =>
    intro k hk1 hk2 hfail hsucc
    by_cases hkK : k = K
    · subst hkK
      simp [retryGo, hsucc]
    · have hlt : k < K := by omega
      have hk : call k = Except.error (errs k) := hfail k hlt
      have hrec := ih (k + 1) (by omega) (by omega) hfail hsucc
      simp [retryGo, hk, hrec]

/-- Helper: retryCall with a positive attempt budget where every attempt
below the budget fails makes exactly maxAttempts calls and yields
RetryError wrapping the last failure. -/
theorem retryCall_all_fail {α : Type} (call : Nat → Except PyExc α) (errs : Nat → PyExc)
    (maxAttempts : Nat) (hmax : 1 ≤ maxAttempts)
    (h : ∀ j, j < maxAttempts → call j = Except.error (errs j)) :
    retryCall call maxAttempts
      = (Except.error (PyExc.retryError (errs (maxAttempts - 1))), maxAttempts) := by
  have := retryGo_all_fail call errs (maxAttempts - 1) 0 (fun j hj => h j (by omega))
  simpa [retryCall, Nat.sub_add_cancel hmax] using this

/-- Helper: retryCall where the first K attempts fail and attempt K
(0 based) succeeds with v, K below the budget, returns v after K + 1
calls. -/
theorem retryCall_first_success {α : Type} (call : Nat → Except PyExc α) (errs : Nat → PyExc)
    (K : Nat) (v : α) (maxAttempts : Nat) (hK : K < maxAttempts)
    (hfail : ∀ j, j < K → call j = Except.error (errs j))
    (hsucc : call K = Except.ok v) :
    retryCall call maxAttempts = (Except.ok v, K + 1) :=
  retryGo_first_success call errs K v (maxAttempts - 1) 0 (by omega) (by omega) hfail hsucc

/-- Helper: when every task listed in the completion order succeeds, the
gather loop succeeds and the final lookup maps each text to the value of
the last task in completion order whose input text equals it. -/
theorem gatherLoop_ok {V : Type} (texts : List String) (task : Nat → Except PyExc V)
    (fetch : Nat → V) :
    ∀ (order : List Nat) (d : String → Option V),
      (∀ i ∈ order, task i = Except.ok (fetch i)) →
      gatherLoop texts task order d = Except.ok (fun t =>
        match lastIdxFor texts t order with
        | some j => some (fetch j)
        | none => d t) := by
  intro order
  induction order with
  | nil =>
    intro d _
    simp [gatherLoop, lastIdxFor]
  | cons i rest ih =>
    intro d h
    have hi : task i = Except.ok (fetch i) := h i (by simp)
    have hrec := ih (fun t => if t = texts.getD i "" then some (fetch i) else d t)
      (fun j hj => h j (by simp [hj]))
    simp only [gatherLoop, hi]
    rw [hrec]
    congr 1
    funext t
    cases hlast : lastIdxFor texts t rest with
    | some j => simp [lastIdxFor, hlast]
    | none =>
      simp only [lastIdxFor, hlast]
      by_cases ht : t = texts.getD i ""
      · rw [if_pos ht, if_pos ht]
      · rw [if_neg ht, if_neg ht]

/-- Helper: a task index returned by lastIdxFor belongs to the order and
matches the text. -/
theorem lastIdxFor_mem (texts : List String) (t : String) :
    ∀ (order : List Nat) (j : Nat), lastIdxFor texts t order = some j →
      j ∈ order ∧ t = texts.getD j "" := by
  intro order
  induction order with
  | nil => intro j h; simp [lastIdxFor] at h
  | cons i rest ih =>
    intro j h
    simp only [lastIdxFor] at h
    cases hlast : lastIdxFor texts t rest with
    | some j2 =>
      rw [hlast] at h
      cases h
      have := ih j hlast
      exact ⟨by simp [this.1], this.2⟩
    | none =>
      rw [hlast] at h
      by_cases ht : t = texts.getD i ""
      · rw [if_pos ht] at h
        cases h
        exact ⟨by simp, ht⟩
      · rw [if_neg ht] at h
        exact Option.noConfusion h

/-- Helper: lastIdxFor finds something whenever a matching task is in the
order. -/
theorem lastIdxFor_ne_none (texts : List String) (t : String) :
    ∀ (order : List Nat) (i : Nat), i ∈ order → t = texts.getD i "" →
      lastIdxFor texts t order ≠ none := by
  intro order
  induction order with
  | nil => intro i h; simp at h
  | cons a rest ih =>
    intro i hmem ht
    simp only [lastIdxFor]
    cases hlast : lastIdxFor texts t rest with
    | some j => simp
    | none =>
      rcases List.mem_cons.mp hmem with h1 | h2
      · subst h1
        show (if t = texts.getD i "" then some i else none) ≠ none
        rw [if_pos ht]
        simp
      · exact absurd hlast (ih i h2 ht)

/-- Helper: when the matching task index in the order is unique, it is
exactly what lastIdxFor finds. -/
theorem lastIdxFor_unique (texts : List String) (t : String) :
    ∀ (order : List Nat) (i : Nat), i ∈ order → t = texts.getD i "" →
      (∀ j ∈ order, t = texts.getD j "" → j = i) →
      lastIdxFor texts t order = some i := by
  intro order
  induction order with
  | nil => intro i h; simp at h
  | cons a rest ih =>
    intro i hmem ht huniq
    simp only [lastIdxFor]
    cases hlast : lastIdxFor texts t rest with
    | some j =>
      have hj := lastIdxFor_mem texts t rest j hlast
      have : j = i := huniq j (by simp [hj.1]) hj.2
      simp [this]
    | none =>
      have hnotrest : i ∉ rest := fun hr => (lastIdxFor_ne_none texts t rest i hr ht) hlast
      have hia : i = a := by
        rcases List.mem_cons.mp hmem with h1 | h2
        · exact h1
        · exact absurd h2 hnotrest
      subst hia
      show (if t = texts.getD i "" then some i else none) = some i
      rw [if_pos ht]

/-- Helper: the gather loop aborts with the exception of the first failed
task in completion order, regardless of what follows it. -/
theorem gatherLoop_abort {V : Type} (texts : List String) (task : Nat → Except PyExc V)
    (fetch : Nat → V) (e : PyExc) (i0 : Nat) :
    ∀ (pre post : List Nat) (d : String → Option V),
      (∀ j ∈ pre, task j = Except.ok (fetch j)) → task i0 = Except.error e →
      gatherLoop texts task (pre ++ i0 :: post) d = Except.error e := by
  intro pre
  induction pre with
  | nil =>
    intro post d _ hbad
    simp [gatherLoop, hbad]
  | cons a pre ih =>
    intro post d hok hbad
    have ha : task a = Except.ok (fetch a) := hok a (by simp)
    simp only [List.cons_append, gatherLoop, ha]
    exact ih post _ (fun j hj => hok j (by simp [hj])) hbad

/-- Helper: when the completion order is a permutation of the input
positions and every task succeeds, the batch returns one row per input
position, each row being the fetched value of the last task in completion
order sharing that position text. -/
theorem batch_embeddings_ok {V : Type} [Inhabited V] (texts : List String)
    (attempts : Nat → Nat → Except PyExc V) (fetch : Nat → V) (order : List Nat)
    (hperm : order.Perm (List.range texts.length))
    (hok : ∀ i, i < texts.length → (get_single_embedding attempts i).fst = Except.ok (fetch i)) :
    batch_embeddings texts attempts order = Except.ok (texts.map (fun t =>
      (match lastIdxFor texts t order with
       | some j => some (fetch j)
       | none => (none : Option V)).getD default)) := by
  have htask : ∀ i ∈ order, (get_single_embedding attempts i).fst = Except.ok (fetch i) := by
    intro i hi
    exact hok i (List.mem_range.mp (hperm.mem_iff.mp hi))
  have hloop := gatherLoop_ok texts (fun i => (get_single_embedding attempts i).fst) fetch
    order (fun _ => none) htask
  simp only [batch_embeddings, hloop]

/-- Helper: the value a mapped list holds at a position below its length. -/
theorem map_getD_of_lt {A B : Type} [Inhabited B] (l : List A) (f : A → B) (a0 : A)
    (i : Nat) (h : i < l.length) :
    (l.map f).getD i default = f (l.getD i a0) := by
  rw [List.getD_eq_getElem (l.map f) default (by simpa using h),
    List.getD_eq_getElem l a0 h, List.getElem_map]

/-- Helper: with pairwise distinct texts, a full completion order resolves
the lookup key of position i to task i itself. -/
theorem lastIdxFor_of_nodup (texts : List String) (order : List Nat) (i : Nat)
    (hnd : texts.Nodup) (hperm : order.Perm (List.range texts.length))
    (hi : i < texts.length) :
    lastIdxFor texts (texts.getD i "") order = some i := by
  apply lastIdxFor_unique texts (texts.getD i "") order i
  · exact hperm.mem_iff.mpr (List.mem_range.mpr hi)
  · rfl
  · intro j hj hdup
    have hjlen : j < texts.length := List.mem_range.mp (hperm.mem_iff.mp hj)
    have : texts[i] = texts[j] := by
      rw [← List.getD_eq_getElem texts "" hi, ← List.getD_eq_getElem texts "" hjlen]
      exact hdup
    exact ((List.Nodup.getElem_inj_iff hnd).mp this).symm

/-- Helper: get_openai_response under total failure of the first
maxAttempts provider calls ends in RetryError wrapping the OpenAIError
of the last attempt, after exactly maxAttempts calls. -/
theorem get_openai_response_all_fail (env : List PyObj → Nat → Except (String × String) String)
    (messages : List PyObj) (maxAttempts : Nat) (cls msg : Nat → String)
    (hmax : 1 ≤ maxAttempts)
    (hfail : ∀ k, k < maxAttempts → env messages k = Except.error (cls k, msg k)) :
    get_openai_response env messages maxAttempts
      = (Except.error (PyExc.retryError (PyExc.openAIError (msg (maxAttempts - 1)))), maxAttempts) := by
  unfold get_openai_response
  exact retryCall_all_fail _ (fun k => PyExc.openAIError (msg k)) maxAttempts hmax
    (fun j hj => by simp [hfail j hj])

/-- Helper: get_openai_response_chat under total failure of the first
maxAttempts provider calls returns APIError carrying str of the
RetryError, after exactly maxAttempts calls. -/
theorem get_openai_response_chat_all_fail
    (env : List PyObj → Nat → Except (String × String) String)
    (messages : Sum (List PyObj) String) (system_message : PyObj)
    (maxAttempts : Nat) (cls msg : Nat → String)
    (hmax : 1 ≤ maxAttempts)
    (hfail : ∀ k, k < maxAttempts →
      env (buildMessages messages system_message) k = Except.error (cls k, msg k)) :
    get_openai_response_chat env maxAttempts messages system_message
      = (Except.error (PyExc.apiError (PyExc.str
          (PyExc.retryError (PyExc.openAIError (msg (maxAttempts - 1)))))), maxAttempts) := by
  have h := get_openai_response_all_fail env (buildMessages messages system_message)
    maxAttempts cls msg hmax hfail
  simp only [get_openai_response_chat]
  rw [h]

/-- Helper: get_palm_response under total failure of the first
maxAttempts provider calls ends in RetryError wrapping the raw provider
exception of the last attempt, after exactly maxAttempts calls, with no
typed wrapping. -/
theorem get_palm_response_all_fail (env : String → Nat → Except (String × String) String)
    (prompt : String) (maxAttempts : Nat) (cls msg : Nat → String)
    (hmax : 1 ≤ maxAttempts)
    (hfail : ∀ k, k < maxAttempts → env prompt k = Except.error (cls k, msg k)) :
    get_palm_response env prompt maxAttempts
      = (Except.error (PyExc.retryError
          (PyExc.providerError (cls (maxAttempts - 1)) (msg (maxAttempts - 1)))), maxAttempts) := by
  unfold get_palm_response
  exact retryCall_all_fail _ (fun k => PyExc.providerError (cls k) (msg k)) maxAttempts hmax
    (fun j hj => by simp [hfail j hj])

/-- C2: a completion call through get_openai_response_chat whose
underlying provider call fails on every attempt up to the configured
maximum (settings.API_RETRY_ATTEMPTS, any positive value) produces the
typed API error exactly once as its single outcome, after exactly
maxAttempts underlying provider calls (the second component counts the
calls made). -/
theorem c2_exhausted_retries_typed_error_after_max_calls
    (env : List PyObj → Nat → Except (String × String) String)
    (messages : Sum (List PyObj) String) (system_message : PyObj)
    (maxAttempts : Nat) (cls msg : Nat → String)
    (hmax : 1 ≤ maxAttempts)
    (hfail : ∀ k, k < maxAttempts →
      env (buildMessages messages system_message) k = Except.error (cls k, msg k)) :
    get_openai_response_chat env maxAttempts messages system_message
      = (Except.error (PyExc.apiError (PyExc.str
          (PyExc.retryError (PyExc.openAIError (msg (maxAttempts - 1)))))), maxAttempts) :=
  get_openai_response_chat_all_fail env messages system_message maxAttempts cls msg hmax hfail

/-- C2 witness: with a provider that fails every attempt and a retry
budget of 3, the chat call returns the typed APIError and made exactly 3
underlying calls. -/
theorem c2_witness :
    (1 ≤ 3 ∧ ∀ k : Nat, k < 3 →
      (Except.error ("RateLimitError", "rate limited") : Except (String × String) String)
        = Except.error ("RateLimitError", "rate limited")) ∧
    get_openai_response_chat (fun _ _ => Except.error ("RateLimitError", "rate limited")) 3
      (Sum.inr "hello") defaultSystemMessage
      = (Except.error (PyExc.apiError (PyExc.str
          (PyExc.retryError (PyExc.openAIError "rate limited")))), 3) :=
  ⟨⟨by omega, fun _ _ => rfl⟩,
   c2_exhausted_retries_typed_error_after_max_calls
     (fun _ _ => Except.error ("RateLimitError", "rate limited")) (Sum.inr "hello")
     defaultSystemMessage 3 (fun _ => "RateLimitError") (fun _ => "rate limited")
     (by omega) (fun _ _ => rfl)⟩

/-- C3: a completion call whose provider call fails on the first K
attempts and succeeds on attempt K + 1 (1 based), with K below the
configured maximum, returns the successful result of that attempt (and
made exactly K + 1 underlying calls). -/
theorem c3_transient_failure_returns_success
    (env : List PyObj → Nat → Except (String × String) String)
    (messages : List PyObj) (maxAttempts K : Nat) (v : String) (cls msg : Nat → String)
    (hK : K < maxAttempts)
    (hfail : ∀ j, j < K → env messages j = Except.error (cls j, msg j))
    (hsucc : env messages K = Except.ok v) :
    get_openai_response env messages maxAttempts = (Except.ok v, K + 1) := by
  unfold get_openai_response
  exact retryCall_first_success _ (fun k => PyExc.openAIError (msg k)) K v maxAttempts hK
    (fun j hj => by simp [hfail j hj]) (by simp [hsucc])

/-- C3 witness: a provider failing twice then succeeding, with budget 5,
returns the third-attempt result after 3 calls. -/
theorem c3_witness :
    (2 < 5 ∧ (∀ j : Nat, j < 2 →
      (if j < 2 then Except.error ("APIConnectionError", "boom")
        else Except.ok "taxonomy") = (Except.error ("APIConnectionError", "boom")
          : Except (String × String) String)) ∧
      (if 2 < 2 then Except.error ("APIConnectionError", "boom")
        else Except.ok "taxonomy") = (Except.ok "taxonomy" : Except (String × String) String)) ∧
    get_openai_response
      (fun _ j => if j < 2 then Except.error ("APIConnectionError", "boom") else Except.ok "taxonomy")
      [] 5 = (Except.ok "taxonomy", 3) :=
  ⟨⟨by omega, fun j hj => by simp [hj], by simp⟩,
   c3_transient_failure_returns_success
     (fun _ j => if j < 2 then Except.error ("APIConnectionError", "boom") else Except.ok "taxonomy")
     [] 5 2 "taxonomy" (fun _ => "APIConnectionError") (fun _ => "boom")
     (by omega) (fun j hj => by simp [hj]) (by simp)⟩

/-- C4 counterexample: on the legacy palm completion path the claim
fails.  With a provider failing both attempts of a budget of 2,
get_palm_response surfaces the untyped tenacity RetryError wrapping the
raw provider exception; the caller does not see a typed API error. -/
theorem c4_counterexample :
    (get_palm_response (fun _ _ => Except.error ("ServiceUnavailable", "palm down")) "p" 2).fst
      = Except.error (PyExc.retryError (PyExc.providerError "ServiceUnavailable" "palm down"))
    ∧ isTypedAPIError
        (get_palm_response (fun _ _ => Except.error ("ServiceUnavailable", "palm down")) "p" 2).fst
      = false := ⟨rfl, rfl⟩

/-- C4 amended: on retry exhaustion, get_openai_response_chat raises the
typed APIError, whose message is the retry-framework rendering of the
RetryError: it names the wrapped OpenAIError class but does not carry
the original provider message.  The legacy get_palm_response performs no
wrapping: the untyped tenacity RetryError carrying the raw provider
exception propagates to the caller, so it is not a typed API error
there. -/
theorem c4_amended_error_wrapping
    (env_o : List PyObj → Nat → Except (String × String) String)
    (env_p : String → Nat → Except (String × String) String)
    (messages : Sum (List PyObj) String) (system_message : PyObj) (prompt : String)
    (maxAttempts : Nat) (cls_o msg_o cls_p msg_p : Nat → String)
    (hmax : 1 ≤ maxAttempts)
    (hfo : ∀ k, k < maxAttempts →
      env_o (buildMessages messages system_message) k = Except.error (cls_o k, msg_o k))
    (hfp : ∀ k, k < maxAttempts → env_p prompt k = Except.error (cls_p k, msg_p k)) :
    (get_openai_response_chat env_o maxAttempts messages system_message).fst
      = Except.error (PyExc.apiError "RetryError[<Future state=finished raised OpenAIError>]")
    ∧ isTypedAPIError (get_openai_response_chat env_o maxAttempts messages system_message).fst
      = true
    ∧ (get_palm_response env_p prompt maxAttempts).fst
      = Except.error (PyExc.retryError
          (PyExc.providerError (cls_p (maxAttempts - 1)) (msg_p (maxAttempts - 1))))
    ∧ isTypedAPIError (get_palm_response env_p prompt maxAttempts).fst = false := by
  have ho := get_openai_response_chat_all_fail env_o messages system_message maxAttempts
    cls_o msg_o hmax hfo
  have hp := get_palm_response_all_fail env_p prompt maxAttempts cls_p msg_p hmax hfp
  refine ⟨?_, ?_, ?_, ?_⟩
  · rw [ho]
    rfl
  · rw [ho]
    rfl
  · rw [hp]
  · rw [hp]
    rfl

/-- C4 witness: both paths exercised at a concrete always-failing
provider with a retry budget of 2. -/
theorem c4_witness :
    (1 ≤ 2
      ∧ (∀ k : Nat, k < 2 →
          (Except.error ("Timeout", "oops") : Except (String × String) String)
            = Except.error ("Timeout", "oops"))
      ∧ (∀ k : Nat, k < 2 →
          (Except.error ("ServiceUnavailable", "palm down") : Except (String × String) String)
            = Except.error ("ServiceUnavailable", "palm down"))) ∧
    ((get_openai_response_chat (fun _ _ => Except.error ("Timeout", "oops")) 2
        (Sum.inr "hi") defaultSystemMessage).fst
      = Except.error (PyExc.apiError "RetryError[<Future state=finished raised OpenAIError>]")
    ∧ isTypedAPIError (get_openai_response_chat (fun _ _ => Except.error ("Timeout", "oops")) 2
        (Sum.inr "hi") defaultSystemMessage).fst = true
    ∧ (get_palm_response (fun _ _ => Except.error ("ServiceUnavailable", "palm down")) "p" 2).fst
      = Except.error (PyExc.retryError (PyExc.providerError "ServiceUnavailable" "palm down"))
    ∧ isTypedAPIError
        (get_palm_response (fun _ _ => Except.error ("ServiceUnavailable", "palm down")) "p" 2).fst
      = false) :=
  ⟨⟨by omega, fun _ _ => rfl, fun _ _ => rfl⟩,
   c4_amended_error_wrapping
     (fun _ _ => Except.error ("Timeout", "oops"))
     (fun _ _ => Except.error ("ServiceUnavailable", "palm down"))
     (Sum.inr "hi") defaultSystemMessage "p" 2
     (fun _ => "Timeout") (fun _ => "oops")
     (fun _ => "ServiceUnavailable") (fun _ => "palm down")
     (by omega) (fun _ _ => rfl) (fun _ _ => rfl)⟩

/-- C5: a single-prompt (string) call with the default system message
produces exactly the two-message conversation: the wrapped default
system message followed by one user message whose content is the
prompt. -/
theorem c5_single_prompt_two_message_conversation (prompt : String) :
    buildMessages (Sum.inr prompt) defaultSystemMessage
      = [PyObj.pdict [("role", PyObj.pstr "system"),
           ("content", PyObj.pstr "You are an expert taxonomy creator.")],
         PyObj.pdict [("role", PyObj.pstr "user"), ("content", PyObj.pstr prompt)]]
    ∧ (buildMessages (Sum.inr prompt) defaultSystemMessage).length = 2 :=
  ⟨rfl, rfl⟩

/-- Helper: wrapping a value as the content of a fresh system-message
dict never reproduces the value itself (the wrapped dict strictly
contains it). -/
theorem wrapSystemMessage_ne (o : PyObj) : wrapSystemMessage o ≠ o := by
  intro h
  have hs := congrArg sizeOf h
  simp [wrapSystemMessage] at hs
  omega

/-- C9: when the caller supplies system_message already as a role and
content dict, get_openai_response_chat still re-wraps it: the first
message of the conversation is a dict with role system whose content is
the caller dict itself, which is a dict (not text) and differs from the
caller message used as-is. -/
theorem c9_system_message_dict_rewrapped (kvs : List (String × PyObj))
    (messages : Sum (List PyObj) String) :
    (buildMessages messages (PyObj.pdict kvs)).head?
      = some (PyObj.pdict [("role", PyObj.pstr "system"), ("content", PyObj.pdict kvs)])
    ∧ getKey (wrapSystemMessage (PyObj.pdict kvs)) "content" = some (PyObj.pdict kvs)
    ∧ (∀ s : String, getKey (wrapSystemMessage (PyObj.pdict kvs)) "content" ≠ some (PyObj.pstr s))
    ∧ wrapSystemMessage (PyObj.pdict kvs) ≠ PyObj.pdict kvs := by
  refine ⟨?_, rfl, ?_, wrapSystemMessage_ne (PyObj.pdict kvs)⟩
  · cases messages <;> rfl
  · intro s h
    rw [show getKey (wrapSystemMessage (PyObj.pdict kvs)) "content" = some (PyObj.pdict kvs)
      from rfl] at h
    exact PyObj.noConfusion (Option.some.inj h)

/-- C10: a list-of-messages input produces exactly the wrapped system
message prepended to the caller list: length grows by one and the caller
messages follow unchanged and in order, with no special case when the
list already starts with a system message. -/
theorem c10_list_input_prepends_system_message (ms : List PyObj) (system_message : PyObj) :
    buildMessages (Sum.inl ms) system_message = wrapSystemMessage system_message :: ms
    ∧ (buildMessages (Sum.inl ms) system_message).length = ms.length + 1
    ∧ (buildMessages (Sum.inl ms) system_message).tail = ms :=
  ⟨rfl, rfl, rfl⟩

/-- C1: for a non-empty sequence of distinct texts, whatever completion
order the concurrent per-item fetches finish in, both batch embedding
functions return exactly one row per input, the i-th row being the value
fetched by the task for the i-th input text. -/
theorem c1_batch_embeddings_preserve_input_order {V : Type} [Inhabited V]
    (texts : List String) (attempts : Nat → Nat → Except PyExc V) (fetch : Nat → V)
    (order : List Nat)
    (_hne : texts ≠ [])
    (hnd : texts.Nodup)
    (hperm : order.Perm (List.range texts.length))
    (hok : ∀ i, i < texts.length → (get_single_embedding attempts i).fst = Except.ok (fetch i)) :
    ∃ rows : List V,
      get_openai_embeddings texts attempts order = Except.ok rows
      ∧ get_palm_embeddings texts attempts order = Except.ok rows
      ∧ rows.length = texts.length
      ∧ ∀ i, i < texts.length → rows.getD i default = fetch i := by
  have hbatch := batch_embeddings_ok texts attempts fetch order hperm hok
  refine ⟨_, hbatch, hbatch, by simp, ?_⟩
  intro i hi
  rw [map_getD_of_lt texts _ "" i hi, lastIdxFor_of_nodup texts order i hnd hperm hi]
  rfl

/-- C1 witness: two distinct texts fetched in reversed completion order
still yield rows in input order. -/
theorem c1_witness :
    ((["alpha", "beta"] : List String) ≠ []
      ∧ (["alpha", "beta"] : List String).Nodup
      ∧ ([1, 0] : List Nat).Perm (List.range 2)
      ∧ (∀ i : Nat, i < 2 →
          (get_single_embedding (fun i _ => Except.ok [(i : Int)]) i).fst
            = Except.ok [(i : Int)]))
    ∧ ∃ rows : List (List Int),
        get_openai_embeddings ["alpha", "beta"] (fun i _ => Except.ok [(i : Int)]) [1, 0]
          = Except.ok rows
        ∧ get_palm_embeddings ["alpha", "beta"] (fun i _ => Except.ok [(i : Int)]) [1, 0]
          = Except.ok rows
        ∧ rows.length = 2
        ∧ ∀ i, i < 2 → rows.getD i default = [(i : Int)] :=
  ⟨⟨by simp, by simp, by decide, fun i hi => by
     rcases i with _ | (_ | n)
     · rfl
     · rfl
     · omega⟩,
   c1_batch_embeddings_preserve_input_order ["alpha", "beta"]
     (fun i _ => Except.ok [(i : Int)]) (fun i => [(i : Int)]) [1, 0]
     (by simp) (by simp) (by decide) (fun i hi => by
     rcases i with _ | (_ | n)
     · rfl
     · rfl
     · have hlen : (["alpha", "beta"] : List String).length = 2 := rfl
       omega)⟩

/-- C6: with duplicate input texts, the output still has one row per
input position; all positions sharing a text value receive the same row,
namely the value fetched by the last task in completion order whose
input text is that value. -/
theorem c6_duplicate_texts_last_resolved_row {V : Type} [Inhabited V]
    (texts : List String) (attempts : Nat → Nat → Except PyExc V) (fetch : Nat → V)
    (order : List Nat)
    (hperm : order.Perm (List.range texts.length))
    (hok : ∀ i, i < texts.length → (get_single_embedding attempts i).fst = Except.ok (fetch i)) :
    ∃ rows : List V,
      get_openai_embeddings texts attempts order = Except.ok rows
      ∧ rows.length = texts.length
      ∧ (∀ i j, i < texts.length → j < texts.length →
          texts.getD i "" = texts.getD j "" → rows.getD i default = rows.getD j default)
      ∧ (∀ i j, i < texts.length →
          lastIdxFor texts (texts.getD i "") order = some j →
          rows.getD i default = fetch j) := by
  have hbatch := batch_embeddings_ok texts attempts fetch order hperm hok
  refine ⟨_, hbatch, by simp, ?_, ?_⟩
  · intro i j hi hj heq
    rw [map_getD_of_lt texts _ "" i hi, map_getD_of_lt texts _ "" j hj, heq]
  · intro i j hi hlast
    rw [map_getD_of_lt texts _ "" i hi, hlast]
    rfl

/-- C6 witness: two equal texts whose tasks fetch different values; the
task completing last (position 0 here, completion order [1, 0]) supplies
the row used for both positions. -/
theorem c6_witness :
    (([1, 0] : List Nat).Perm (List.range 2)
      ∧ (∀ i : Nat, i < 2 →
          (get_single_embedding (fun i _ => Except.ok [(i : Int)]) i).fst
            = Except.ok [(i : Int)]))
    ∧ ∃ rows : List (List Int),
        get_openai_embeddings ["dup", "dup"] (fun i _ => Except.ok [(i : Int)]) [1, 0]
          = Except.ok rows
        ∧ rows.length = 2
        ∧ (∀ i j, i < 2 → j < 2 →
            (["dup", "dup"] : List String).getD i "" = (["dup", "dup"] : List String).getD j "" →
            rows.getD i default = rows.getD j default)
        ∧ (∀ i j, i < 2 →
            lastIdxFor ["dup", "dup"] ((["dup", "dup"] : List String).getD i "") [1, 0] = some j →
            rows.getD i default = [(j : Int)]) :=
  ⟨⟨by decide, fun i hi => by
     rcases i with _ | (_ | n)
     · rfl
     · rfl
     · omega⟩,
   c6_duplicate_texts_last_resolved_row ["dup", "dup"]
     (fun i _ => Except.ok [(i : Int)]) (fun i => [(i : Int)]) [1, 0]
     (by decide) (fun i hi => by
     rcases i with _ | (_ | n)
     · rfl
     · rfl
     · have hlen : (["dup", "dup"] : List String).length = 2 := rfl
       omega)⟩

/-- C7 counterexample: the claim as stated fails on what propagates.
With a single text whose 6 fetch attempts all fail, the exception
escaping the batch is the tenacity RetryError wrapping the raw provider
exception, not the raw provider exception itself. -/
theorem c7_counterexample :
    get_openai_embeddings ["alpha"] (fun _ _ =>
        (Except.error (PyExc.providerError "RateLimitError" "rate limited")
          : Except PyExc (List Int))) [0]
      = Except.error (PyExc.retryError (PyExc.providerError "RateLimitError" "rate limited"))
    ∧ get_openai_embeddings ["alpha"] (fun _ _ =>
        (Except.error (PyExc.providerError "RateLimitError" "rate limited")
          : Except PyExc (List Int))) [0]
      ≠ Except.error (PyExc.providerError "RateLimitError" "rate limited") := by
  have h1 : get_openai_embeddings ["alpha"] (fun _ _ =>
      (Except.error (PyExc.providerError "RateLimitError" "rate limited")
        : Except PyExc (List Int))) [0]
      = Except.error (PyExc.retryError (PyExc.providerError "RateLimitError" "rate limited")) :=
    rfl
  refine ⟨h1, ?_⟩
  intro h
  rw [h1] at h
  exact PyExc.noConfusion (Except.error.inj h)

/-- C7 amended: each per-item fetch is retried up to 6 attempts (exactly
6 underlying calls when all fail); when the budget is exhausted, the
tenacity RetryError wrapping the last raw provider exception - still not
a typed API error - propagates out of the batch call, aborting the whole
batch with no partial result, regardless of how many earlier tasks
completed successfully. -/
theorem c7_amended_exhausted_fetch_aborts_batch {V : Type} [Inhabited V]
    (texts : List String) (attempts : Nat → Nat → Except PyExc V) (fetch : Nat → V)
    (pre post : List Nat) (i0 : Nat) (cls : String) (msg : Nat → String)
    (hpre : ∀ j ∈ pre, (get_single_embedding attempts j).fst = Except.ok (fetch j))
    (hfail : ∀ k, k < 6 → attempts i0 k = Except.error (PyExc.providerError cls (msg k))) :
    get_single_embedding attempts i0
      = (Except.error (PyExc.retryError (PyExc.providerError cls (msg 5))), 6)
    ∧ get_openai_embeddings texts attempts (pre ++ i0 :: post)
        = Except.error (PyExc.retryError (PyExc.providerError cls (msg 5)))
    ∧ get_palm_embeddings texts attempts (pre ++ i0 :: post)
        = Except.error (PyExc.retryError (PyExc.providerError cls (msg 5)))
    ∧ isTypedAPIError
        (get_openai_embeddings texts attempts (pre ++ i0 :: post)) = false := by
  have hsingle : get_single_embedding attempts i0
      = (Except.error (PyExc.retryError (PyExc.providerError cls (msg 5))), 6) := by
    unfold get_single_embedding
    exact retryCall_all_fail _ (fun k => PyExc.providerError cls (msg k)) 6 (by omega) hfail
  have habort := gatherLoop_abort texts (fun i => (get_single_embedding attempts i).fst) fetch
    (PyExc.retryError (PyExc.providerError cls (msg 5))) i0 pre post (fun _ => none) hpre
    (by
      show (get_single_embedding attempts i0).fst
        = Except.error (PyExc.retryError (PyExc.providerError cls (msg 5)))
      rw [hsingle])
  have hbatch : batch_embeddings texts attempts (pre ++ i0 :: post)
      = Except.error (PyExc.retryError (PyExc.providerError cls (msg 5))) := by
    simp only [batch_embeddings, habort]
  exact ⟨hsingle, hbatch, hbatch, by
    rw [show get_openai_embeddings texts attempts (pre ++ i0 :: post)
      = Except.error (PyExc.retryError (PyExc.providerError cls (msg 5))) from hbatch]
    rfl⟩

/-- C7 witness: first task succeeds, second task fails all 6 attempts;
the batch aborts with the RetryError-wrapped provider exception. -/
theorem c7_witness :
    ((∀ j ∈ ([0] : List Nat),
        (get_single_embedding (fun i _ =>
          if i = 0 then Except.ok [(0 : Int)]
          else Except.error (PyExc.providerError "RateLimitError" "rate limited")) j).fst
          = Except.ok [(0 : Int)])
      ∧ (∀ k : Nat, k < 6 →
          (fun (i : Nat) (_ : Nat) =>
            if i = 0 then Except.ok [(0 : Int)]
            else Except.error (PyExc.providerError "RateLimitError" "rate limited")) 1 k
            = Except.error (PyExc.providerError "RateLimitError" "rate limited")))
    ∧ (get_single_embedding (fun i _ =>
          if i = 0 then Except.ok [(0 : Int)]
          else Except.error (PyExc.providerError "RateLimitError" "rate limited")) 1
        = (Except.error (PyExc.retryError
            (PyExc.providerError "RateLimitError" "rate limited")), 6)
      ∧ get_openai_embeddings ["alpha", "beta"] (fun i _ =>
          if i = 0 then Except.ok [(0 : Int)]
          else Except.error (PyExc.providerError "RateLimitError" "rate limited")) ([0] ++ 1 :: [])
        = Except.error (PyExc.retryError (PyExc.providerError "RateLimitError" "rate limited"))
      ∧ get_palm_embeddings ["alpha", "beta"] (fun i _ =>
          if i = 0 then Except.ok [(0 : Int)]
          else Except.error (PyExc.providerError "RateLimitError" "rate limited")) ([0] ++ 1 :: [])
        = Except.error (PyExc.retryError (PyExc.providerError "RateLimitError" "rate limited"))
      ∧ isTypedAPIError (get_openai_embeddings ["alpha", "beta"] (fun i _ =>
          if i = 0 then Except.ok [(0 : Int)]
          else Except.error (PyExc.providerError "RateLimitError" "rate limited")) ([0] ++ 1 :: []))
        = false) :=
  ⟨⟨by
      intro j hj
      rcases List.mem_singleton.mp hj with h
      subst h
      rfl,
    fun _ _ => rfl⟩,
   c7_amended_exhausted_fetch_aborts_batch ["alpha", "beta"]
     (fun i _ =>
       if i = 0 then Except.ok [(0 : Int)]
       else Except.error (PyExc.providerError "RateLimitError" "rate limited"))
     (fun _ => [(0 : Int)]) [0] [] 1 "RateLimitError" (fun _ => "rate limited")
     (by
       intro j hj
       rcases List.mem_singleton.mp hj with h
       subst h
       rfl)
     (fun _ _ => rfl)⟩

/-- Helper: bounds on the randomized exponential wait: the randomization
ceiling lies within the configured bounds, and the drawn wait lies within
zero and the configured maximum. -/
theorem wait_random_exponential_bounds (minB maxB : ℚ) (n : Nat) (u : ℚ)
    (hmin : 0 ≤ minB) (hminmax : minB ≤ maxB) (hu0 : 0 ≤ u) (hu1 : u ≤ 1) :
    minB ≤ waitExponentialHigh 1 minB maxB n ∧ waitExponentialHigh 1 minB maxB n ≤ maxB
    ∧ 0 ≤ wait_random_exponential minB maxB n u
    ∧ wait_random_exponential minB maxB n u ≤ maxB := by
  have hhigh_lo : minB ≤ waitExponentialHigh 1 minB maxB n :=
    le_trans (le_max_right 0 minB) (le_max_left _ _)
  have hhigh_hi : waitExponentialHigh 1 minB maxB n ≤ maxB :=
    max_le (max_le (hmin.trans hminmax) hminmax) (min_le_right _ _)
  have hhigh0 : 0 ≤ waitExponentialHigh 1 minB maxB n := le_trans hmin hhigh_lo
  have hw0 : 0 ≤ wait_random_exponential minB maxB n u := mul_nonneg hu0 hhigh0
  have hw1 : wait_random_exponential minB maxB n u ≤ waitExponentialHigh 1 minB maxB n :=
    mul_le_of_le_one_left hhigh0 hu1
  exact ⟨hhigh_lo, hhigh_hi, hw0, le_trans hw1 hhigh_hi⟩

/-- C8 counterexample: the claim as stated fails.  At attempt number 1
of a completion call (bounds 1 to 60), the randomization ceiling is 1,
and the admissible uniform draw 0 yields a wait of 0, which is below the
configured minimum of 1 - so the wait does not lie within [min, max]. -/
theorem c8_counterexample :
    (0 : ℚ) ≤ 0 ∧ (0 : ℚ) ≤ 1
    ∧ wait_random_exponential 1 60 1 0 = 0
    ∧ ¬ (1 ≤ wait_random_exponential 1 60 1 0) := by
  norm_num [wait_random_exponential, waitExponentialHigh]

/-- C8 amended: for every attempt of every wrapped operation, the
randomized backoff wait is never negative and never exceeds the
configured maximum (60 seconds for completion calls, 20 for embedding
fetches); the configured minimum bounds the randomization ceiling from
below (the ceiling lies in [min, max]) but the drawn wait itself may
fall below the minimum, as the draw is uniform over [0, ceiling]. -/
theorem c8_amended_wait_bounds (n : Nat) (u : ℚ) (hu0 : 0 ≤ u) (hu1 : u ≤ 1) :
    (1 ≤ waitExponentialHigh 1 1 60 n ∧ waitExponentialHigh 1 1 60 n ≤ 60
      ∧ 0 ≤ wait_random_exponential 1 60 n u ∧ wait_random_exponential 1 60 n u ≤ 60)
    ∧ (1 ≤ waitExponentialHigh 1 1 20 n ∧ waitExponentialHigh 1 1 20 n ≤ 20
      ∧ 0 ≤ wait_random_exponential 1 20 n u ∧ wait_random_exponential 1 20 n u ≤ 20) :=
  ⟨wait_random_exponential_bounds 1 60 n u (by norm_num) (by norm_num) hu0 hu1,
   wait_random_exponential_bounds 1 20 n u (by norm_num) (by norm_num) hu0 hu1⟩

/-- C8 witness: concrete draw one half at attempt number 3. -/
theorem c8_witness :
    ((0 : ℚ) ≤ 1 / 2 ∧ (1 / 2 : ℚ) ≤ 1)
    ∧ ((1 ≤ waitExponentialHigh 1 1 60 3 ∧ waitExponentialHigh 1 1 60 3 ≤ 60
        ∧ 0 ≤ wait_random_exponential 1 60 3 (1 / 2)
        ∧ wait_random_exponential 1 60 3 (1 / 2) ≤ 60)
      ∧ (1 ≤ waitExponentialHigh 1 1 20 3 ∧ waitExponentialHigh 1 1 20 3 ≤ 20
        ∧ 0 ≤ wait_random_exponential 1 20 3 (1 / 2)
        ∧ wait_random_exponential 1 20 3 (1 / 2) ≤ 20)) :=
  ⟨⟨by norm_num, by norm_num⟩,
   c8_amended_wait_bounds 3 (1 / 2) (by norm_num) (by norm_num)⟩
